import Mathlib

/-!
Verification of the core of the `smarthings_manager` repository: the batch
action dispatcher (`actions.py`) and the device predicate algebra
(`filters.py`), shallowly embedded in Lean 4.

Python dictionaries keyed by `device_id` are modelled as association lists
(`Results`) with insertion-order-preserving overwrite, matching CPython dict
semantics.  An operation on a device that may raise is modelled as an
`Except String` value whose error payload is the stringified exception.
Outcome records (Python dicts with a varying key set) are modelled as a
structure with `Option` fields, `none` meaning the key is absent; the
`skipped` key is only ever written as `True` by the code, so it is modelled
as a `Bool` that is `false` when the key is absent (this agrees with every
read, which is `result.get('skipped', False)`).
-/

/-- An outcome record in an action's Result Table (`actions.py`).
`success` is present in every record the code writes.  `action`, `error`,
`level`, `result` model optionally-present keys. -/
structure Outcome where
  success : Bool
  action : Option String := none
  error : Option String := none
  skipped : Bool := false
  name : String
  level : Option Int := none
  result : Option String := none
deriving Repr, DecidableEq

/-- A Result Table: Python dict from device_id to outcome record. -/
abbrev Results := List (String × Outcome)

/-- Python `key in dict`. -/
def dictContains : Results → String → Bool
  | [], _ => false
  | (k1, _) :: rest, k => k1 == k || dictContains rest k

/-- Python `dict[key] = value`: overwrite in place, else append (CPython
dicts preserve insertion order). -/
def dictInsert : Results → String → Outcome → Results
  | [], k, v => [(k, v)]
  | (k1, v1) :: rest, k, v =>
    if k1 == k then (k, v) :: rest else (k1, v1) :: dictInsert rest k v

/-- Python `dict.get(key)`: the value stored at a key, if any. -/
def dictGet : Results → String → Option Outcome
  | [], _ => none
  | (k1, v1) :: rest, k => if k1 == k then some v1 else dictGet rest k

/-- The device surface consumed by `actions.py` (`devices.py` class
`Device`, treated as opaque by the dispatcher): identity, display name,
capability query, and fallible asynchronous operations.  An operation's
`Except.error e` models the operation raising an exception whose
stringification is `e`. -/
structure ActDevice where
  device_id : String
  name : String
  has_capability : String → Bool
  turn_on : Except String Unit
  turn_off : Except String Unit
  set_level : Int → Except String Unit
  refresh : Except String Unit

/-- `SwitchAction._turn_on_device` (`actions.py` lines 108-123): the record
the unit of work writes for one device. -/
def SwitchAction.turnOnRecord (d : ActDevice) : Outcome :=
  match d.turn_on with
  | Except.ok _ => { success := true, action := some "on", name := d.name }
  | Except.error e =>
    { success := false, action := some "on", error := some e, name := d.name }

/-- `SwitchAction._turn_off_device` (`actions.py` lines 125-140). -/
def SwitchAction.turnOffRecord (d : ActDevice) : Outcome :=
  match d.turn_off with
  | Except.ok _ => { success := true, action := some "off", name := d.name }
  | Except.error e =>
    { success := false, action := some "off", error := some e, name := d.name }

/-- `RefreshAction._refresh_device` (`actions.py` lines 175-190). -/
def RefreshAction.refreshRecord (d : ActDevice) : Outcome :=
  match d.refresh with
  | Except.ok _ => { success := true, action := some "refresh", name := d.name }
  | Except.error e =>
    { success := false, action := some "refresh", error := some e, name := d.name }

/-- `LevelAction._set_level` (`actions.py` lines 243-260). -/
def LevelAction.setLevelRecord (level : Int) (d : ActDevice) : Outcome :=
  match d.set_level level with
  | Except.ok _ =>
    { success := true, action := some "setLevel", level := some level, name := d.name }
  | Except.error e =>
    { success := false, action := some "setLevel", level := some level,
      error := some e, name := d.name }

/-- `CustomAction._execute_action` (`actions.py` lines 297-313); `f` is the
user-provided `action_func`, returning a result value or raising. -/
def CustomAction.customRecord (f : ActDevice → Except String String) (d : ActDevice) : Outcome :=
  match f d with
  | Except.ok r =>
    { success := true, action := some "custom", result := some r, name := d.name }
  | Except.error e =>
    { success := false, action := some "custom", error := some e, name := d.name }

/-- The parallel phase of an `execute` call: one unit of work per listed
device, each writing its record at its own `device_id` key.  Each device has
exactly one unit of work and the scheduler is cooperative, so the table
contents equal this sequential fold. -/
def runTasks (record : ActDevice → Outcome) : List ActDevice → Results → Results
  | [], r => r
  | d :: ds, r => runTasks record ds (dictInsert r d.device_id (record d))

/-- The skip record synthesized for a device absent from the Result Table
after the parallel phase (`actions.py` lines 97-104 and 232-239). -/
def skipRecord (capability : String) (d : ActDevice) : Outcome :=
  { success := false, skipped := true,
    error := some ("Device does not have " ++ capability ++ " capability"),
    name := d.name }

/-- The skip backfill loop of a capability-gated `execute`: every device
whose id is not yet in the table gets the synthesized skip record. -/
def backfill (capability : String) : List ActDevice → Results → Results
  | [], r => r
  | d :: ds, r =>
    backfill capability ds
      (if dictContains r d.device_id then r
       else dictInsert r d.device_id (skipRecord capability d))

/-- `SwitchAction.execute` (`actions.py` lines 71-106): reset the table,
run one unit of work per device with the "switch" capability, then backfill
skip records. -/
def SwitchAction.execute (turn_on : Bool) (devices : List ActDevice) : Results :=
  backfill "switch" devices
    (runTasks (fun d => if turn_on then SwitchAction.turnOnRecord d
                        else SwitchAction.turnOffRecord d)
      (devices.filter (fun d => d.has_capability "switch")) [])

/-- `RefreshAction.execute` (`actions.py` lines 154-173): every device gets
a unit of work; no capability gate, no skip path. -/
def RefreshAction.execute (devices : List ActDevice) : Results :=
  runTasks RefreshAction.refreshRecord devices []

/-- `LevelAction.__init__` (`actions.py` lines 196-207): a level outside
[0,100] raises `ValueError` before the action exists; otherwise the level is
stored.  No Result Table exists in the error case. -/
def LevelAction.init (level : Int) : Except String Int :=
  if 0 ≤ level ∧ level ≤ 100 then Except.ok level
  else Except.error "Level must be between 0 and 100"

/-- `LevelAction.execute` (`actions.py` lines 209-241). -/
def LevelAction.execute (level : Int) (devices : List ActDevice) : Results :=
  backfill "switchLevel" devices
    (runTasks (LevelAction.setLevelRecord level)
      (devices.filter (fun d => d.has_capability "switchLevel")) [])

/-- `CustomAction.execute` (`actions.py` lines 276-295). -/
def CustomAction.execute (f : ActDevice → Except String String)
    (devices : List ActDevice) : Results :=
  runTasks (CustomAction.customRecord f) devices []

/-- The four concrete `BatchAction` subclasses, as one type so that claims
about "any action" can quantify over it. -/
inductive BAction where
  | switchA (turn_on : Bool)
  | refreshA
  | levelA (level : Int)
  | customA (f : ActDevice → Except String String)

/-- Dispatch of `execute` over the four subclasses. -/
def BAction.run : BAction → List ActDevice → Results
  | .switchA t, ds => SwitchAction.execute t ds
  | .refreshA, ds => RefreshAction.execute ds
  | .levelA l, ds => LevelAction.execute l ds
  | .customA f, ds => CustomAction.execute f ds

/-- An action instance: its parameters together with the sole mutable state
it owns, `self.results` (empty at construction, `actions.py` line 23). -/
structure BatchActionState where
  action : BAction
  results : Results

/-- `BatchAction.execute` as a state transformer: the table is rebuilt from
scratch (`self.results = {}` opens every `execute` body) and both stored and
returned. -/
def BatchActionState.execute (s : BatchActionState) (devices : List ActDevice) :
    BatchActionState × Results :=
  let r := s.action.run devices
  ({ s with results := r }, r)

/-- `BatchAction.get_results` (`actions.py` lines 37-43). -/
def BatchActionState.get_results (s : BatchActionState) : Results := s.results

/-- `sum(1 for result in results.values() if result.get('success', False))`
(`actions.py` lines 54 and 340). -/
def successCount (r : Results) : Nat := r.countP (fun p => p.2.success)

/-- `sum(1 for r in results.values() if r.get('skipped', False))`
(`actions.py` line 341). -/
def skipCount (r : Results) : Nat := r.countP (fun p => p.2.skipped)

/-- `error_count = len(results) - success_count - skip_count`
(`actions.py` line 342). -/
def errorCountCode (r : Results) : Nat := r.length - successCount r - skipCount r

/-- The records that are neither successes nor skips. -/
def errorCount (r : Results) : Nat :=
  r.countP (fun p => !p.2.success && !p.2.skipped)

/-- `BatchAction.get_success_rate` (`actions.py` lines 45-55); Python float
arithmetic is modelled over ℚ. -/
def BatchActionState.get_success_rate (s : BatchActionState) : Rat :=
  if s.results.isEmpty then 0
  else ((successCount s.results : Rat) / (s.results.length : Rat)) * 100

/-!
### Predicate algebra (`filters.py`)

A device, as seen by a leaf predicate, is a bag of attributes any of which
may be missing or unreadable.  `none` in an attribute of `FilterDevice`
models the corresponding Python attribute access raising (for attributes
read bare inside the `try` block) or `hasattr` being false (for attributes
read behind a `hasattr` guard); nested `Option`s distinguish an absent
attribute from an attribute whose value is `None`.

Each leaf predicate's `matchesBody` is the body of the `try` block of its
`matches` method: an `Except.error` is an exception escaping the body.  Its
`matches` is the whole method, whose `except` clause converts any such
exception to `False`.
-/

/-- The attribute surface of a device consumed by `filters.py`. -/
structure FilterDevice where
  is_online : Option Bool
  room : Option (Option String)
  name : Option String
  battery_attr : Option (Option Int)
  st_status_battery : Option Int
  capabilities : Option (List String)
  st_capabilities : Option (List String)
  has_turn_on : Bool
  has_turn_off : Bool
  type_attr : Option String
  st_type : Option String

/-- The `except Exception: return False` clause shared by every leaf
predicate's `matches` method. -/
def softBool : Except String Bool → Bool
  | Except.ok b => b
  | Except.error _ => false

/-- Whether `pat` occurs as a contiguous run in `s`. -/
def strContainsAux (pat : List Char) : List Char → Bool
  | [] => pat.isEmpty
  | c :: rest => List.isPrefixOf pat (c :: rest) || strContainsAux pat rest

/-- Python `pat in s` on strings: substring containment. -/
def strContains (pat s : String) : Bool := strContainsAux pat.data s.data

/-- `StatusFilter` (`filters.py` lines 153-181). -/
structure StatusFilter where
  is_online : Bool
deriving Repr, DecidableEq

/-- Body of the `try` block of `StatusFilter.matches`. -/
def StatusFilter.matchesBody (f : StatusFilter) (d : FilterDevice) : Except String Bool :=
  match d.is_online with
  | none => Except.error "AttributeError"
  | some b => Except.ok (b == f.is_online)

/-- `StatusFilter.matches`. -/
def StatusFilter.matches (f : StatusFilter) (d : FilterDevice) : Bool :=
  softBool (f.matchesBody d)

/-- `RoomFilter` stored state (`filters.py` lines 184-198). -/
structure RoomFilter where
  room_name : String
  case_sensitive : Bool
deriving Repr, DecidableEq

/-- `RoomFilter.__init__`: the pattern is lower-cased at construction when
matching case-insensitively. -/
def RoomFilter.init (room_name : String) (case_sensitive : Bool) : RoomFilter :=
  { room_name := if case_sensitive then room_name else room_name.toLower,
    case_sensitive := case_sensitive }

/-- Body of the `try` block of `RoomFilter.matches` (`filters.py` lines
200-230): no room or empty room name is a non-match; otherwise exact or
substring match, case-folded unless case-sensitive. -/
def RoomFilter.matchesBody (f : RoomFilter) (d : FilterDevice) : Except String Bool :=
  match d.room with
  | none => Except.error "AttributeError"
  | some roomVal =>
    match roomVal with
    | none => Except.ok false
    | some room0 =>
      if room0 = "" then Except.ok false
      else
        let room1 := if f.case_sensitive then room0 else room0.toLower
        let pattern := if f.case_sensitive then f.room_name else f.room_name.toLower
        Except.ok (pattern == room1 || strContains pattern room1)

/-- `RoomFilter.matches`. -/
def RoomFilter.matches (f : RoomFilter) (d : FilterDevice) : Bool :=
  softBool (f.matchesBody d)

/-- `NameFilter` stored state (`filters.py` lines 233-249). -/
structure NameFilter where
  pattern : String
  mode : String
  case_sensitive : Bool
deriving Repr, DecidableEq

/-- `NameFilter.__init__`. -/
def NameFilter.init (name_pattern : String) (mode : String) (case_sensitive : Bool) : NameFilter :=
  { pattern := if case_sensitive then name_pattern else name_pattern.toLower,
    mode := mode, case_sensitive := case_sensitive }

/-- Body of the `try` block of `NameFilter.matches` (`filters.py` lines
251-275): match per mode, case-folded unless case-sensitive; an unknown
mode is a non-match. -/
def NameFilter.matchesBody (f : NameFilter) (d : FilterDevice) : Except String Bool :=
  match d.name with
  | none => Except.error "AttributeError"
  | some name0 =>
    let name1 := if f.case_sensitive then name0 else name0.toLower
    if f.mode == "exact" then Except.ok (name1 == f.pattern)
    else if f.mode == "contains" then Except.ok (strContains f.pattern name1)
    else if f.mode == "startswith" then Except.ok (name1.startsWith f.pattern)
    else Except.ok false

/-- `NameFilter.matches`. -/
def NameFilter.matches (f : NameFilter) (d : FilterDevice) : Bool :=
  softBool (f.matchesBody d)

/-- `BatteryLevelFilter` stored state (`filters.py` lines 278-292). -/
structure BatteryLevelFilter where
  level : Int
  operator : String
deriving Repr, DecidableEq

/-- Body of the `try` block of `BatteryLevelFilter.matches` (`filters.py`
lines 294-330): read `battery_level` (default `None`), fall back to
`_st_device.status.battery`; no reading is a non-match; otherwise compare
per operator, an unknown operator being a non-match. -/
def BatteryLevelFilter.matchesBody (f : BatteryLevelFilter) (d : FilterDevice) :
    Except String Bool :=
  let direct : Option Int := d.battery_attr.join
  let battery_level : Option Int :=
    match direct with
    | some v => some v
    | none => d.st_status_battery
  match battery_level with
  | none => Except.ok false
  | some bl =>
    if f.operator == "<=" then Except.ok (decide (bl ≤ f.level))
    else if f.operator == "<" then Except.ok (decide (bl < f.level))
    else if f.operator == ">=" then Except.ok (decide (f.level ≤ bl))
    else if f.operator == ">" then Except.ok (decide (f.level < bl))
    else if f.operator == "==" then Except.ok (decide (bl = f.level))
    else Except.ok false

/-- `BatteryLevelFilter.matches`. -/
def BatteryLevelFilter.matches (f : BatteryLevelFilter) (d : FilterDevice) : Bool :=
  softBool (f.matchesBody d)

/-- `CapabilityFilter` (`filters.py` lines 333-345). -/
structure CapabilityFilter where
  capability : String
deriving Repr, DecidableEq

/-- Body of the `try` block of `CapabilityFilter.matches` (`filters.py`
lines 347-377): a `capabilities` attribute on the device, then one on the
wrapped `_st_device`, decide by membership; only when neither exists are
capabilities inferred from exposed operations ("switch" from
`turn_on`/`turn_off`, "battery" from `battery_level`). -/
def CapabilityFilter.matchesBody (f : CapabilityFilter) (d : FilterDevice) :
    Except String Bool :=
  match d.capabilities with
  | some caps => Except.ok (caps.contains f.capability)
  | none =>
    match d.st_capabilities with
    | some caps => Except.ok (caps.contains f.capability)
    | none =>
      if f.capability == "switch" && d.has_turn_on && d.has_turn_off then Except.ok true
      else if f.capability == "battery" && d.battery_attr.isSome then Except.ok true
      else Except.ok false

/-- `CapabilityFilter.matches`. -/
def CapabilityFilter.matches (f : CapabilityFilter) (d : FilterDevice) : Bool :=
  softBool (f.matchesBody d)

/-- `TypeFilter` stored state (`filters.py` lines 380-394). -/
structure TypeFilter where
  device_type : String
  case_sensitive : Bool
deriving Repr, DecidableEq

/-- `TypeFilter.__init__`. -/
def TypeFilter.init (device_type : String) (case_sensitive : Bool) : TypeFilter :=
  { device_type := if case_sensitive then device_type else device_type.toLower,
    case_sensitive := case_sensitive }

/-- Body of the `try` block of `TypeFilter.matches` (`filters.py` lines
396-427): a `type` attribute, then `_st_device.type`, compared for
equality; otherwise fall back to substring match against the device name. -/
def TypeFilter.matchesBody (f : TypeFilter) (d : FilterDevice) : Except String Bool :=
  match d.type_attr with
  | some t =>
    let dt := if f.case_sensitive then t else t.toLower
    Except.ok (dt == f.device_type)
  | none =>
    match d.st_type with
    | some t =>
      let dt := if f.case_sensitive then t else t.toLower
      Except.ok (dt == f.device_type)
    | none =>
      let n := (d.name.getD "").toLower
      Except.ok (strContains f.device_type n.toLower)

/-- `TypeFilter.matches`. -/
def TypeFilter.matches (f : TypeFilter) (d : FilterDevice) : Bool :=
  softBool (f.matchesBody d)

/-- The predicate expression tree: the six leaf `DeviceFilter` subclasses
and the composites `AndFilter`, `OrFilter`, `NotFilter` (`filters.py` lines
65-150). -/
inductive DeviceFilter where
  | statusF (f : StatusFilter)
  | roomF (f : RoomFilter)
  | nameF (f : NameFilter)
  | batteryF (f : BatteryLevelFilter)
  | capabilityF (f : CapabilityFilter)
  | typeF (f : TypeFilter)
  | andF (f1 f2 : DeviceFilter)
  | orF (f1 f2 : DeviceFilter)
  | notF (f1 : DeviceFilter)
deriving DecidableEq

/-- `matches` across the class hierarchy: leaves delegate to their own
`matches`; `AndFilter`/`OrFilter`/`NotFilter` combine child results with
the native short-circuit boolean operators. -/
def DeviceFilter.matches : DeviceFilter → FilterDevice → Bool
  | .statusF f, d => f.matches d
  | .roomF f, d => f.matches d
  | .nameF f, d => f.matches d
  | .batteryF f, d => f.matches d
  | .capabilityF f, d => f.matches d
  | .typeF f, d => f.matches d
  | .andF f1 f2, d => f1.matches d && f2.matches d
  | .orF f1 f2, d => f1.matches d || f2.matches d
  | .notF f1, d => !(f1.matches d)

/-- `FilterGroup` stored state (`filters.py` lines 430-446): an ordered
list of predicates and an operator, lower-cased at construction. -/
structure FilterGroup where
  filters : List DeviceFilter
  operator : String

/-- `FilterGroup.__init__`. -/
def FilterGroup.init (filters : Option (List DeviceFilter)) (operator : String) : FilterGroup :=
  { filters := filters.getD [], operator := operator.toLower }

/-- `FilterGroup.matches` (`filters.py` lines 457-475): empty group matches
everything; otherwise `all`/`any` of the member results in list order, and
an unknown operator raises `ValueError` (modelled as `Except.error`). -/
def FilterGroup.matches (g : FilterGroup) (d : FilterDevice) : Except String Bool :=
  if g.filters.isEmpty then Except.ok true
  else if g.operator == "and" then Except.ok (g.filters.all (fun f => f.matches d))
  else if g.operator == "or" then Except.ok (g.filters.any (fun f => f.matches d))
  else Except.error ("Unknown operator: " ++ g.operator)

/-!
### Auxiliary predicates and concrete instances used in witnesses
-/

/-- The record-shape invariant every record written by the code satisfies:
an `error` key is present exactly on non-success records, and a skipped
record is never a success. -/
def recordOk (v : Outcome) : Prop :=
  v.error.isSome = !v.success ∧ (v.skipped = true → v.success = false)

/-- The per-record field condition asserted by the specification: `error`
present iff `success` is false AND the record is not skipped. -/
def claimedErrorPresence (v : Outcome) : Prop :=
  v.error.isSome = true ↔ (v.success = false ∧ v.skipped = false)

/-- A concrete device with both capabilities whose every operation fails. -/
def wFail : ActDevice :=
  { device_id := "w1", name := "Heater",
    has_capability := fun c => c == "switch" || c == "switchLevel",
    turn_on := Except.error "boom", turn_off := Except.error "boom",
    set_level := fun _ => Except.error "boom",
    refresh := Except.error "boom" }

/-- A concrete device with no capabilities whose every operation succeeds. -/
def noCapDevice : ActDevice :=
  { device_id := "n1", name := "Sensor",
    has_capability := fun _ => false,
    turn_on := Except.ok (), turn_off := Except.ok (),
    set_level := fun _ => Except.ok (),
    refresh := Except.ok () }

/-- A concrete device with both capabilities whose every operation
succeeds. -/
def okDevice : ActDevice :=
  { device_id := "k1", name := "Lamp",
    has_capability := fun c => c == "switch" || c == "switchLevel",
    turn_on := Except.ok (), turn_off := Except.ok (),
    set_level := fun _ => Except.ok (),
    refresh := Except.ok () }

/-- A second concrete healthy device with a distinct id. -/
def okDevice2 : ActDevice :=
  { device_id := "k2", name := "Plug",
    has_capability := fun c => c == "switch" || c == "switchLevel",
    turn_on := Except.ok (), turn_off := Except.ok (),
    set_level := fun _ => Except.ok (),
    refresh := Except.ok () }

/-- A filter-level device none of whose attributes can be read. -/
def unreadableDevice : FilterDevice :=
  { is_online := none, room := none, name := none, battery_attr := none,
    st_status_battery := none, capabilities := none, st_capabilities := none,
    has_turn_on := false, has_turn_off := false, type_attr := none, st_type := none }

/-- A filter-level device that exposes an empty `capabilities` collection
while also exposing `turn_on` and `turn_off` operations. -/
def emptyCapsSwitchDevice : FilterDevice :=
  { is_online := some true, room := some (some "Kitchen"), name := some "Kettle",
    battery_attr := none, st_status_battery := none,
    capabilities := some [], st_capabilities := none,
    has_turn_on := true, has_turn_off := true, type_attr := none, st_type := none }

/-- A filter-level device that declares the "switch" capability directly. -/
def declaredSwitchDevice : FilterDevice :=
  { is_online := some true, room := some (some "Kitchen"), name := some "Kettle",
    battery_attr := none, st_status_battery := none,
    capabilities := some ["switch"], st_capabilities := none,
    has_turn_on := false, has_turn_off := false, type_attr := none, st_type := none }

/-!
### Lemmas about the Result Table primitives
-/

theorem dictGet_insert_self (r : Results) (k : String) (v : Outcome) :
    dictGet (dictInsert r k v) k = some v := by
  induction r with
  | nil => simp [dictInsert, dictGet]
  | cons p rest ih =>
    obtain ⟨k1, v1⟩ := p
    by_cases h : k1 = k
    · simp [dictInsert, dictGet, h]
    · simp [dictInsert, dictGet, h, ih]

theorem dictGet_insert_ne (r : Results) (k k1 : String) (v : Outcome) (h : k1 ≠ k) :
    dictGet (dictInsert r k v) k1 = dictGet r k1 := by
  have h1 : k ≠ k1 := Ne.symm h
  induction r with
  | nil => simp [dictInsert, dictGet, h1]
  | cons p rest ih =>
    obtain ⟨k2, v2⟩ := p
    by_cases h2 : k2 = k
    · subst h2
      simp [dictInsert, dictGet, h1]
    · simp [dictInsert, dictGet, h2, ih]

theorem dictContains_eq_isSome (r : Results) (k : String) :
    dictContains r k = (dictGet r k).isSome := by
  induction r with
  | nil => simp [dictContains, dictGet]
  | cons p rest ih =>
    obtain ⟨k1, v1⟩ := p
    by_cases h : k1 = k
    · simp [dictContains, dictGet, h]
    · simp [dictContains, dictGet, h, ih]

theorem mem_dictInsert (r : Results) (k : String) (v : Outcome)
    (p : String × Outcome) (hp : p ∈ dictInsert r k v) : p ∈ r ∨ p = (k, v) := by
  induction r with
  | nil =>
    simp [dictInsert] at hp
    exact Or.inr hp
  | cons q rest ih =>
    obtain ⟨k1, v1⟩ := q
    by_cases h : k1 = k
    · simp [dictInsert, h] at hp
      rcases hp with hp | hp
      · exact Or.inr hp
      · exact Or.inl (List.mem_cons_of_mem _ hp)
    · simp [dictInsert, h] at hp
      rcases hp with hp | hp
      · exact Or.inl (by simp [hp])
      · rcases ih hp with h2 | h2
        · exact Or.inl (List.mem_cons_of_mem _ h2)
        · exact Or.inr h2

/-!
### Lemmas about the parallel phase and the skip backfill
-/

theorem runTasks_get_not_listed (record : ActDevice → Outcome) (ds : List ActDevice)
    (r : Results) (k : String) (h : ∀ d ∈ ds, d.device_id ≠ k) :
    dictGet (runTasks record ds r) k = dictGet r k := by
  induction ds generalizing r with
  | nil => rfl
  | cons d ds ih =>
    rw [runTasks, ih _ (fun d2 h2 => h d2 (List.mem_cons_of_mem _ h2)),
      dictGet_insert_ne]
    exact fun h2 => h d (List.mem_cons_self _ _) h2.symm

theorem runTasks_get_listed (record : ActDevice → Outcome) (ds : List ActDevice)
    (r : Results) (d : ActDevice)
    (hnd : (ds.map (fun d2 => d2.device_id)).Nodup) (hd : d ∈ ds) :
    dictGet (runTasks record ds r) d.device_id = some (record d) := by
  induction ds generalizing r with
  | nil => cases hd
  | cons d1 ds ih =>
    simp only [List.map_cons, List.nodup_cons] at hnd
    rcases List.mem_cons.mp hd with h | h
    · subst h
      rw [runTasks, runTasks_get_not_listed]
      · exact dictGet_insert_self r d.device_id (record d)
      · intro d2 h2 h3
        exact hnd.1 (h3 ▸ List.mem_map_of_mem (fun d3 => d3.device_id) h2)
    · exact ih _ hnd.2 h

theorem runTasks_contains (record : ActDevice → Outcome) (ds : List ActDevice)
    (r : Results) (k : String) :
    dictContains (runTasks record ds r) k =
      (dictContains r k || ds.any (fun d => d.device_id == k)) := by
  induction ds generalizing r with
  | nil => simp [runTasks]
  | cons d ds ih =>
    rw [runTasks, ih, List.any_cons]
    by_cases h : d.device_id = k
    · subst h
      rw [dictContains_eq_isSome (dictInsert r d.device_id (record d)), dictGet_insert_self]
      simp
    · rw [dictContains_eq_isSome (dictInsert r d.device_id (record d)),
        dictGet_insert_ne _ _ _ _ (Ne.symm h), ← dictContains_eq_isSome]
      have hbe : (d.device_id == k) = false := by simp [h]
      rw [hbe]
      simp

theorem mem_runTasks (record : ActDevice → Outcome) (ds : List ActDevice)
    (r : Results) (p : String × Outcome) (hp : p ∈ runTasks record ds r) :
    p ∈ r ∨ ∃ d ∈ ds, p.2 = record d := by
  induction ds generalizing r with
  | nil => exact Or.inl hp
  | cons d ds ih =>
    rcases ih _ hp with h | h
    · rcases mem_dictInsert _ _ _ _ h with h2 | h2
      · exact Or.inl h2
      · exact Or.inr ⟨d, List.mem_cons_self _ _, by simp [h2]⟩
    · rcases h with ⟨d2, h2, h3⟩
      exact Or.inr ⟨d2, List.mem_cons_of_mem _ h2, h3⟩

theorem backfill_get_contained (c : String) (ds : List ActDevice) (r : Results)
    (k : String) (h : dictContains r k = true) :
    dictGet (backfill c ds r) k = dictGet r k := by
  induction ds generalizing r with
  | nil => rfl
  | cons d ds ih =>
    rw [backfill]
    by_cases h1 : dictContains r d.device_id
    · rw [if_pos h1]
      exact ih _ h
    · rw [if_neg h1]
      have hne : k ≠ d.device_id := by
        intro h2
        rw [h2] at h
        exact h1 h
      rw [ih, dictGet_insert_ne _ _ _ _ hne]
      rw [dictContains_eq_isSome, dictGet_insert_ne _ _ _ _ hne, ← dictContains_eq_isSome]
      exact h

theorem backfill_get_skip (c : String) (ds : List ActDevice) (r : Results)
    (d : ActDevice) (hnd : (ds.map (fun d2 => d2.device_id)).Nodup) (hd : d ∈ ds)
    (h : dictContains r d.device_id = false) :
    dictGet (backfill c ds r) d.device_id = some (skipRecord c d) := by
  induction ds generalizing r with
  | nil => cases hd
  | cons d1 ds ih =>
    simp only [List.map_cons, List.nodup_cons] at hnd
    rcases List.mem_cons.mp hd with h1 | h1
    · subst h1
      rw [backfill, if_neg (by simp [h])]
      rw [backfill_get_contained]
      · exact dictGet_insert_self _ _ _
      · rw [dictContains_eq_isSome, dictGet_insert_self]
        rfl
    · rw [backfill]
      by_cases h2 : dictContains r d1.device_id
      · rw [if_pos h2]
        exact ih _ hnd.2 h1 h
      · rw [if_neg h2]
        refine ih _ hnd.2 h1 ?_
        have hne : d.device_id ≠ d1.device_id := by
          intro h3
          exact hnd.1 (h3 ▸ List.mem_map_of_mem (fun d3 => d3.device_id) h1)
        rw [dictContains_eq_isSome, dictGet_insert_ne _ _ _ _ hne, ← dictContains_eq_isSome]
        exact h

theorem backfill_contains (c : String) (ds : List ActDevice) (r : Results) (k : String) :
    dictContains (backfill c ds r) k =
      (dictContains r k || ds.any (fun d => d.device_id == k)) := by
  induction ds generalizing r with
  | nil => simp [backfill]
  | cons d ds ih =>
    rw [backfill, List.any_cons]
    by_cases h1 : dictContains r d.device_id
    · rw [if_pos h1, ih]
      by_cases h : d.device_id = k
      · subst h
        rw [h1]
        simp
      · have hbe : (d.device_id == k) = false := by simp [h]
        rw [hbe]
        simp
    · rw [if_neg h1, ih]
      by_cases h : d.device_id = k
      · subst h
        rw [dictContains_eq_isSome (dictInsert r d.device_id (skipRecord c d)),
          dictGet_insert_self]
        simp
      · rw [dictContains_eq_isSome (dictInsert r d.device_id (skipRecord c d)),
          dictGet_insert_ne _ _ _ _ (Ne.symm h), ← dictContains_eq_isSome]
        have hbe : (d.device_id == k) = false := by simp [h]
        rw [hbe]
        simp

theorem mem_backfill (c : String) (ds : List ActDevice) (r : Results)
    (p : String × Outcome) (hp : p ∈ backfill c ds r) :
    p ∈ r ∨ ∃ d ∈ ds, p.2 = skipRecord c d := by
  induction ds generalizing r with
  | nil => exact Or.inl hp
  | cons d ds ih =>
    rw [backfill] at hp
    by_cases h1 : dictContains r d.device_id
    · rw [if_pos h1] at hp
      rcases ih _ hp with h | h
      · exact Or.inl h
      · rcases h with ⟨d2, h2, h3⟩
        exact Or.inr ⟨d2, List.mem_cons_of_mem _ h2, h3⟩
    · rw [if_neg h1] at hp
      rcases ih _ hp with h | h
      · rcases mem_dictInsert _ _ _ _ h with h2 | h2
        · exact Or.inl h2
        · exact Or.inr ⟨d, List.mem_cons_self _ _, by simp [h2]⟩
      · rcases h with ⟨d2, h2, h3⟩
        exact Or.inr ⟨d2, List.mem_cons_of_mem _ h2, h3⟩

/-!
### Lemmas about the four `execute` bodies
-/

theorem nodup_filter_ids (devices : List ActDevice) (q : ActDevice → Bool)
    (hnd : (devices.map (fun d => d.device_id)).Nodup) :
    ((devices.filter q).map (fun d => d.device_id)).Nodup :=
  List.Nodup.sublist (List.Sublist.map _ (List.filter_sublist devices)) hnd

theorem eq_of_id_eq (devices : List ActDevice)
    (hnd : (devices.map (fun d => d.device_id)).Nodup)
    (d1 d2 : ActDevice) (h1 : d1 ∈ devices) (h2 : d2 ∈ devices)
    (h : d1.device_id = d2.device_id) : d1 = d2 :=
  List.inj_on_of_nodup_map hnd h1 h2 h

/-- In a capability-gated `execute`, a capable device's final record is the
one its unit of work wrote: the skip backfill does not overwrite it. -/
theorem gated_execute_get_capable (cap : String) (record : ActDevice → Outcome)
    (devices : List ActDevice) (hnd : (devices.map (fun d => d.device_id)).Nodup)
    (d : ActDevice) (hd : d ∈ devices) (hc : d.has_capability cap = true) :
    dictGet
      (backfill cap devices
        (runTasks record (devices.filter (fun d2 => d2.has_capability cap)) []))
      d.device_id = some (record d) := by
  have hdf : d ∈ devices.filter (fun d2 => d2.has_capability cap) :=
    List.mem_filter.mpr ⟨hd, hc⟩
  have hrun := runTasks_get_listed record _ [] d
    (nodup_filter_ids devices _ hnd) hdf
  rw [backfill_get_contained]
  · exact hrun
  · rw [dictContains_eq_isSome, hrun]
    rfl

/-- In a capability-gated `execute`, an incapable device's final record is
exactly the synthesized skip record. -/
theorem gated_execute_get_incapable (cap : String) (record : ActDevice → Outcome)
    (devices : List ActDevice) (hnd : (devices.map (fun d => d.device_id)).Nodup)
    (d : ActDevice) (hd : d ∈ devices) (hc : d.has_capability cap = false) :
    dictGet
      (backfill cap devices
        (runTasks record (devices.filter (fun d2 => d2.has_capability cap)) []))
      d.device_id = some (skipRecord cap d) := by
  apply backfill_get_skip _ _ _ _ hnd hd
  rw [runTasks_contains]
  have hany : (devices.filter (fun d2 => d2.has_capability cap)).any
      (fun d2 => d2.device_id == d.device_id) = false := by
    rw [List.any_eq_false]
    intro d2 h2
    obtain ⟨h2m, h2c⟩ := List.mem_filter.mp h2
    intro h3
    have h4 : d2.device_id = d.device_id := by simpa using h3
    have h5 := eq_of_id_eq devices hnd d2 d h2m hd h4
    rw [h5, hc] at h2c
    cases h2c
  rw [hany]
  rfl

/-- In an ungated `execute`, every listed device's final record is the one
its unit of work wrote. -/
theorem ungated_execute_get (record : ActDevice → Outcome)
    (devices : List ActDevice) (hnd : (devices.map (fun d => d.device_id)).Nodup)
    (d : ActDevice) (hd : d ∈ devices) :
    dictGet (runTasks record devices []) d.device_id = some (record d) :=
  runTasks_get_listed record devices [] d hnd hd

/-- After any of the four `execute` bodies, every listed device's id is in
the table. -/
theorem run_contains_of_mem (a : BAction) (devices : List ActDevice)
    (d : ActDevice) (hd : d ∈ devices) :
    dictContains (a.run devices) d.device_id = true := by
  have hany : devices.any (fun d2 => d2.device_id == d.device_id) = true :=
    List.any_eq_true.mpr ⟨d, hd, by simp⟩
  cases a with
  | switchA t =>
    rw [BAction.run, SwitchAction.execute, backfill_contains, hany]
    simp
  | refreshA =>
    rw [BAction.run, RefreshAction.execute, runTasks_contains, hany]
    simp
  | levelA l =>
    rw [BAction.run, LevelAction.execute, backfill_contains, hany]
    simp
  | customA f =>
    rw [BAction.run, CustomAction.execute, runTasks_contains, hany]
    simp

/-- Every key of a table produced by `execute` is the id of a listed
device. -/
theorem run_contains_imp (a : BAction) (devices : List ActDevice) (k : String)
    (h : dictContains (a.run devices) k = true) :
    devices.any (fun d => d.device_id == k) = true := by
  have hfilter : ∀ q : ActDevice → Bool,
      (devices.filter q).any (fun d => d.device_id == k) = true →
      devices.any (fun d => d.device_id == k) = true := by
    intro q hq
    rw [List.any_eq_true] at hq ⊢
    obtain ⟨d, hd, he⟩ := hq
    exact ⟨d, (List.mem_filter.mp hd).1, he⟩
  cases a with
  | switchA t =>
    rw [BAction.run, SwitchAction.execute, backfill_contains, runTasks_contains] at h
    simp only [dictContains, Bool.false_or, Bool.or_eq_true] at h
    rcases h with h | h
    · exact hfilter _ h
    · exact h
  | refreshA =>
    rw [BAction.run, RefreshAction.execute, runTasks_contains] at h
    simp only [dictContains, Bool.false_or] at h
    exact h
  | levelA l =>
    rw [BAction.run, LevelAction.execute, backfill_contains, runTasks_contains] at h
    simp only [dictContains, Bool.false_or, Bool.or_eq_true] at h
    rcases h with h | h
    · exact hfilter _ h
    · exact h
  | customA f =>
    rw [BAction.run, CustomAction.execute, runTasks_contains] at h
    simp only [dictContains, Bool.false_or] at h
    exact h

/-!
### Record-shape invariants and summary counting
-/

theorem recordOk_turnOn (d : ActDevice) : recordOk (SwitchAction.turnOnRecord d) := by
  cases h : d.turn_on <;> simp [SwitchAction.turnOnRecord, recordOk, h]

theorem recordOk_turnOff (d : ActDevice) : recordOk (SwitchAction.turnOffRecord d) := by
  cases h : d.turn_off <;> simp [SwitchAction.turnOffRecord, recordOk, h]

theorem recordOk_refresh (d : ActDevice) : recordOk (RefreshAction.refreshRecord d) := by
  cases h : d.refresh <;> simp [RefreshAction.refreshRecord, recordOk, h]

theorem recordOk_setLevel (level : Int) (d : ActDevice) :
    recordOk (LevelAction.setLevelRecord level d) := by
  cases h : d.set_level level <;> simp [LevelAction.setLevelRecord, recordOk, h]

theorem recordOk_custom (f : ActDevice → Except String String) (d : ActDevice) :
    recordOk (CustomAction.customRecord f d) := by
  cases h : f d <;> simp [CustomAction.customRecord, recordOk, h]

theorem recordOk_skip (c : String) (d : ActDevice) : recordOk (skipRecord c d) := by
  simp [skipRecord, recordOk]

/-- Every record in any table produced by any of the four `execute` bodies
satisfies the record-shape invariant. -/
theorem run_recordOk (a : BAction) (devices : List ActDevice)
    (p : String × Outcome) (hp : p ∈ a.run devices) : recordOk p.2 := by
  cases a with
  | switchA t =>
    rw [BAction.run, SwitchAction.execute] at hp
    rcases mem_backfill _ _ _ _ hp with h | h
    · rcases mem_runTasks _ _ _ _ h with h2 | h2
      · exact absurd h2 (List.not_mem_nil p)
      · rcases h2 with ⟨d, _, h3⟩
        rw [h3]
        cases t
        · exact recordOk_turnOff d
        · exact recordOk_turnOn d
    · rcases h with ⟨d, _, h3⟩
      rw [h3]
      exact recordOk_skip _ _
  | refreshA =>
    rw [BAction.run, RefreshAction.execute] at hp
    rcases mem_runTasks _ _ _ _ hp with h2 | h2
    · exact absurd h2 (List.not_mem_nil p)
    · rcases h2 with ⟨d, _, h3⟩
      rw [h3]
      exact recordOk_refresh d
  | levelA l =>
    rw [BAction.run, LevelAction.execute] at hp
    rcases mem_backfill _ _ _ _ hp with h | h
    · rcases mem_runTasks _ _ _ _ h with h2 | h2
      · exact absurd h2 (List.not_mem_nil p)
      · rcases h2 with ⟨d, _, h3⟩
        rw [h3]
        exact recordOk_setLevel l d
    · rcases h with ⟨d, _, h3⟩
      rw [h3]
      exact recordOk_skip _ _
  | customA f =>
    rw [BAction.run, CustomAction.execute] at hp
    rcases mem_runTasks _ _ _ _ hp with h2 | h2
    · exact absurd h2 (List.not_mem_nil p)
    · rcases h2 with ⟨d, _, h3⟩
      rw [h3]
      exact recordOk_custom f d

/-- On any table in which no record is simultaneously a success and a
skip, the three summary counts partition the table. -/
theorem counts_partition (r : Results)
    (h : ∀ p ∈ r, p.2.skipped = true → p.2.success = false) :
    successCount r + skipCount r + errorCount r = r.length := by
  induction r with
  | nil => rfl
  | cons p rest ih =>
    have hh := h p (List.mem_cons_self _ _)
    have ihr := ih (fun q hq => h q (List.mem_cons_of_mem _ hq))
    simp only [successCount, skipCount, errorCount, List.countP_cons,
      List.length_cons] at ihr ⊢
    cases hs : p.2.success with
    | true =>
      cases hk : p.2.skipped with
      | true =>
        rw [hh hk] at hs
        cases hs
      | false =>
        simp [hs, hk]
        omega
    | false =>
      cases hk : p.2.skipped with
      | true =>
        simp [hs, hk]
        omega
      | false =>
        simp [hs, hk]
        omega

theorem errorCountCode_eq (r : Results)
    (h : ∀ p ∈ r, p.2.skipped = true → p.2.success = false) :
    errorCountCode r = errorCount r := by
  have h2 := counts_partition r h
  unfold errorCountCode
  omega

/-!
### Claim theorems
-/

/-- C1: for every device list (with the spec's unique `device_id` keys) and
every batch action, a failure raised by a device's underlying operation is
not propagated out of `execute` (which always returns a table); the failing
device's record is `{success: false, action: <op name>, error: <stringified
failure>, name: <device name>}` (for a gated action this concerns the
devices whose operation actually runs, i.e. the capable ones), and every
other listed device still gets its own record in the table. -/
theorem execute_isolates_operation_failures
    (devices : List ActDevice)
    (hnd : (devices.map (fun d => d.device_id)).Nodup)
    (d : ActDevice) (hd : d ∈ devices) (e : String) :
    (d.has_capability "switch" = true → d.turn_on = Except.error e →
      dictGet (SwitchAction.execute true devices) d.device_id =
        some { success := false, action := some "on", error := some e, name := d.name }) ∧
    (d.has_capability "switch" = true → d.turn_off = Except.error e →
      dictGet (SwitchAction.execute false devices) d.device_id =
        some { success := false, action := some "off", error := some e, name := d.name }) ∧
    (∀ level : Int, d.has_capability "switchLevel" = true →
      d.set_level level = Except.error e →
      dictGet (LevelAction.execute level devices) d.device_id =
        some { success := false, action := some "setLevel", level := some level,
               error := some e, name := d.name }) ∧
    (d.refresh = Except.error e →
      dictGet (RefreshAction.execute devices) d.device_id =
        some { success := false, action := some "refresh", error := some e, name := d.name }) ∧
    (∀ f : ActDevice → Except String String, f d = Except.error e →
      dictGet (CustomAction.execute f devices) d.device_id =
        some { success := false, action := some "custom", error := some e, name := d.name }) ∧
    (∀ a : BAction, ∀ d2 ∈ devices, dictContains (a.run devices) d2.device_id = true) := by
  refine ⟨?_, ?_, ?_, ?_, ?_, ?_⟩
  · intro hc he
    have h1 : dictGet (SwitchAction.execute true devices) d.device_id =
        some (SwitchAction.turnOnRecord d) := by
      rw [SwitchAction.execute]
      exact gated_execute_get_capable "switch" _ devices hnd d hd hc
    rw [h1]
    simp [SwitchAction.turnOnRecord, he]
  · intro hc he
    have h1 : dictGet (SwitchAction.execute false devices) d.device_id =
        some (SwitchAction.turnOffRecord d) := by
      rw [SwitchAction.execute]
      exact gated_execute_get_capable "switch" _ devices hnd d hd hc
    rw [h1]
    simp [SwitchAction.turnOffRecord, he]
  · intro level hc he
    have h1 : dictGet (LevelAction.execute level devices) d.device_id =
        some (LevelAction.setLevelRecord level d) := by
      rw [LevelAction.execute]
      exact gated_execute_get_capable "switchLevel" _ devices hnd d hd hc
    rw [h1]
    simp [LevelAction.setLevelRecord, he]
  · intro he
    have h1 : dictGet (RefreshAction.execute devices) d.device_id =
        some (RefreshAction.refreshRecord d) := by
      rw [RefreshAction.execute]
      exact ungated_execute_get _ devices hnd d hd
    rw [h1]
    simp [RefreshAction.refreshRecord, he]
  · intro f he
    have h1 : dictGet (CustomAction.execute f devices) d.device_id =
        some (CustomAction.customRecord f d) := by
      rw [CustomAction.execute]
      exact ungated_execute_get _ devices hnd d hd
    rw [h1]
    simp [CustomAction.customRecord, he]
  · intro a d2 hd2
    exact run_contains_of_mem a devices d2 hd2

/-- Witness for C1 at the concrete failing device `wFail`. -/
theorem execute_isolates_operation_failures_witness :
    dictGet (SwitchAction.execute true [wFail]) wFail.device_id =
      some { success := false, action := some "on", error := some "boom",
             name := wFail.name } ∧
    dictGet (RefreshAction.execute [wFail]) wFail.device_id =
      some { success := false, action := some "refresh", error := some "boom",
             name := wFail.name } ∧
    dictContains (BAction.run (BAction.levelA 20) [wFail]) wFail.device_id = true :=
  ⟨(execute_isolates_operation_failures [wFail] (by decide) wFail
      (List.mem_cons_self _ _) "boom").1 (by decide) rfl,
   (execute_isolates_operation_failures [wFail] (by decide) wFail
      (List.mem_cons_self _ _) "boom").2.2.2.1 rfl,
   (execute_isolates_operation_failures [wFail] (by decide) wFail
      (List.mem_cons_self _ _) "boom").2.2.2.2.2 (BAction.levelA 20) wFail
      (List.mem_cons_self _ _)⟩

/-- C2: for a capability-gated action, after `execute` every incapable
listed device (its id absent from the table after the parallel phase, the
parallel phase having run only over capable devices) holds exactly the
synthesized skip record, while every capable device keeps the record its
unit of work wrote — the backfill never overwrites a parallel-phase
record. -/
theorem capability_gate_and_skip_backfill
    (devices : List ActDevice)
    (hnd : (devices.map (fun d => d.device_id)).Nodup)
    (d : ActDevice) (hd : d ∈ devices) :
    (∀ t : Bool, d.has_capability "switch" = false →
      dictGet (SwitchAction.execute t devices) d.device_id =
        some { success := false, skipped := true,
               error := some "Device does not have switch capability",
               name := d.name }) ∧
    (∀ level : Int, d.has_capability "switchLevel" = false →
      dictGet (LevelAction.execute level devices) d.device_id =
        some { success := false, skipped := true,
               error := some "Device does not have switchLevel capability",
               name := d.name }) ∧
    (∀ t : Bool, d.has_capability "switch" = true →
      dictGet (SwitchAction.execute t devices) d.device_id =
        some (if t then SwitchAction.turnOnRecord d else SwitchAction.turnOffRecord d)) ∧
    (∀ level : Int, d.has_capability "switchLevel" = true →
      dictGet (LevelAction.execute level devices) d.device_id =
        some (LevelAction.setLevelRecord level d)) := by
  refine ⟨?_, ?_, ?_, ?_⟩
  · intro t hc
    have h1 : dictGet (SwitchAction.execute t devices) d.device_id =
        some (skipRecord "switch" d) := by
      rw [SwitchAction.execute]
      exact gated_execute_get_incapable "switch" _ devices hnd d hd hc
    rw [h1]
    rfl
  · intro level hc
    have h1 : dictGet (LevelAction.execute level devices) d.device_id =
        some (skipRecord "switchLevel" d) := by
      rw [LevelAction.execute]
      exact gated_execute_get_incapable "switchLevel" _ devices hnd d hd hc
    rw [h1]
    rfl
  · intro t hc
    rw [SwitchAction.execute]
    exact gated_execute_get_capable "switch" _ devices hnd d hd hc
  · intro level hc
    rw [LevelAction.execute]
    exact gated_execute_get_capable "switchLevel" _ devices hnd d hd hc

/-- Witness for C2 at a concrete capable and a concrete incapable device. -/
theorem capability_gate_and_skip_backfill_witness :
    dictGet (SwitchAction.execute true [okDevice, noCapDevice]) noCapDevice.device_id =
      some { success := false, skipped := true,
             error := some "Device does not have switch capability",
             name := noCapDevice.name } ∧
    dictGet (SwitchAction.execute true [okDevice, noCapDevice]) okDevice.device_id =
      some (if true then SwitchAction.turnOnRecord okDevice
            else SwitchAction.turnOffRecord okDevice) :=
  ⟨(capability_gate_and_skip_backfill [okDevice, noCapDevice] (by decide)
      noCapDevice (by simp)).1 true (by decide),
   (capability_gate_and_skip_backfill [okDevice, noCapDevice] (by decide)
      okDevice (by simp)).2.2.1 true (by decide)⟩

/-- C4 counterexample: the skip record synthesized by
`SwitchAction.execute` for an incapable device carries an `error` message
even though the record is skipped, so "error present iff success is false
and the record is not skipped" fails on it. -/
theorem result_field_conditions_counterexample :
    dictGet (SwitchAction.execute true [noCapDevice]) "n1" =
      some (skipRecord "switch" noCapDevice) ∧
    ¬ claimedErrorPresence (skipRecord "switch" noCapDevice) := by
  constructor
  · decide
  · unfold claimedErrorPresence
    decide

/-- C4 (amended): in every table produced by any action's `execute`, the
`error` field is present iff `success` is false (skip records also carry an
error message), and the `skipped` field is present-and-true iff the device
lacked the capability required by the action (no device does for the
ungated refresh and custom actions). -/
theorem result_field_conditions_amended (a : BAction) (devices : List ActDevice)
    (hnd : (devices.map (fun d => d.device_id)).Nodup) :
    (∀ p ∈ a.run devices, p.2.error.isSome = !p.2.success) ∧
    (∀ d ∈ devices, ∀ v, dictGet (a.run devices) d.device_id = some v →
      (v.skipped = true ↔ match a with
        | BAction.switchA _ => d.has_capability "switch" = false
        | BAction.levelA _ => d.has_capability "switchLevel" = false
        | BAction.refreshA => False
        | BAction.customA _ => False)) := by
  constructor
  · intro p hp
    exact (run_recordOk a devices p hp).1
  · intro d hd v hv
    cases a with
    | switchA t =>
      cases hc : d.has_capability "switch" with
      | true =>
        have h1 : dictGet (BAction.run (BAction.switchA t) devices) d.device_id =
            some (if t then SwitchAction.turnOnRecord d
                  else SwitchAction.turnOffRecord d) := by
          rw [BAction.run, SwitchAction.execute]
          exact gated_execute_get_capable "switch" _ devices hnd d hd hc
        have h2 := Option.some.inj (h1.symm.trans hv)
        rw [← h2]
        cases t
        · cases h3 : d.turn_off <;> simp [SwitchAction.turnOffRecord, h3]
        · cases h3 : d.turn_on <;> simp [SwitchAction.turnOnRecord, h3]
      | false =>
        have h1 : dictGet (BAction.run (BAction.switchA t) devices) d.device_id =
            some (skipRecord "switch" d) := by
          rw [BAction.run, SwitchAction.execute]
          exact gated_execute_get_incapable "switch" _ devices hnd d hd hc
        have h2 := Option.some.inj (h1.symm.trans hv)
        rw [← h2]
        simp [skipRecord]
    | levelA l =>
      cases hc : d.has_capability "switchLevel" with
      | true =>
        have h1 : dictGet (BAction.run (BAction.levelA l) devices) d.device_id =
            some (LevelAction.setLevelRecord l d) := by
          rw [BAction.run, LevelAction.execute]
          exact gated_execute_get_capable "switchLevel" _ devices hnd d hd hc
        have h2 := Option.some.inj (h1.symm.trans hv)
        rw [← h2]
        cases h3 : d.set_level l <;> simp [LevelAction.setLevelRecord, h3]
      | false =>
        have h1 : dictGet (BAction.run (BAction.levelA l) devices) d.device_id =
            some (skipRecord "switchLevel" d) := by
          rw [BAction.run, LevelAction.execute]
          exact gated_execute_get_incapable "switchLevel" _ devices hnd d hd hc
        have h2 := Option.some.inj (h1.symm.trans hv)
        rw [← h2]
        simp [skipRecord]
    | refreshA =>
      have h1 : dictGet (BAction.run BAction.refreshA devices) d.device_id =
          some (RefreshAction.refreshRecord d) := by
        rw [BAction.run, RefreshAction.execute]
        exact ungated_execute_get _ devices hnd d hd
      have h2 := Option.some.inj (h1.symm.trans hv)
      rw [← h2]
      cases h3 : d.refresh <;> simp [RefreshAction.refreshRecord, h3]
    | customA f =>
      have h1 : dictGet (BAction.run (BAction.customA f) devices) d.device_id =
          some (CustomAction.customRecord f d) := by
        rw [BAction.run, CustomAction.execute]
        exact ungated_execute_get _ devices hnd d hd
      have h2 := Option.some.inj (h1.symm.trans hv)
      rw [← h2]
      cases h3 : f d <;> simp [CustomAction.customRecord, h3]

/-- Witness for the amended C4 at a concrete run. -/
theorem result_field_conditions_amended_witness :
    ((skipRecord "switch" noCapDevice).skipped = true ↔
      noCapDevice.has_capability "switch" = false) :=
  (result_field_conditions_amended (BAction.switchA true) [noCapDevice]
      (by decide)).2 noCapDevice (List.mem_cons_self _ _)
      (skipRecord "switch" noCapDevice) (by decide)

/-- C7: running `execute` twice on one action instance fully replaces the
Result Table: the second call's returned table is also what `get_results`
reads back, and every key of it is the id of a device of the second call's
input list — no residual entry of the first run survives. -/
theorem execute_replaces_results
    (s : BatchActionState) (ds1 ds2 : List ActDevice) (k : String) :
    ((s.execute ds1).1.execute ds2).1.get_results = ((s.execute ds1).1.execute ds2).2 ∧
    (dictContains ((s.execute ds1).1.execute ds2).2 k = true →
      ds2.any (fun d => d.device_id == k) = true) := by
  constructor
  · rfl
  · intro h
    exact run_contains_imp s.action ds2 k h

/-- Witness for C7: after a first run on `okDevice` and a second on
`okDevice2`, the key written by the second run is a second-list id. -/
theorem execute_replaces_results_witness :
    [okDevice2].any (fun d => d.device_id == "k2") = true :=
  (execute_replaces_results { action := BAction.refreshA, results := [] }
      [okDevice] [okDevice2] "k2").2 (by decide)

/-- C8: in every table produced by any action's `execute`, every record
falls in exactly one of the three buckets (success, skipped, error), the
three counts sum to the number of entries, and the code's subtraction-based
error count equals the count of the error bucket. -/
theorem summary_counts_partition (a : BAction) (devices : List ActDevice) :
    (∀ p ∈ a.run devices,
      (p.2.success = true ∧ p.2.skipped = false) ∨
      (p.2.success = false ∧ p.2.skipped = true) ∨
      (p.2.success = false ∧ p.2.skipped = false)) ∧
    successCount (a.run devices) + skipCount (a.run devices) + errorCount (a.run devices)
      = (a.run devices).length ∧
    errorCountCode (a.run devices) = errorCount (a.run devices) := by
  have hsk : ∀ p ∈ a.run devices, p.2.skipped = true → p.2.success = false :=
    fun p hp => (run_recordOk a devices p hp).2
  refine ⟨?_, counts_partition _ hsk, errorCountCode_eq _ hsk⟩
  intro p hp
  cases hs : p.2.success with
  | true =>
    cases hk : p.2.skipped with
    | true =>
      rw [hsk p hp hk] at hs
      cases hs
    | false => exact Or.inl ⟨rfl, rfl⟩
  | false =>
    cases hk : p.2.skipped with
    | true => exact Or.inr (Or.inl ⟨rfl, rfl⟩)
    | false => exact Or.inr (Or.inr ⟨rfl, rfl⟩)

/-- C9: constructing a `LevelAction` with a level outside [0,100] raises at
construction time (the constructor result is an error carrying no action
state and no Result Table); any level inside [0,100] constructs
successfully. -/
theorem level_action_validates_at_construction (level : Int) :
    (¬(0 ≤ level ∧ level ≤ 100) →
      LevelAction.init level = Except.error "Level must be between 0 and 100") ∧
    ((0 ≤ level ∧ level ≤ 100) → LevelAction.init level = Except.ok level) := by
  constructor
  · intro h
    simp [LevelAction.init, h]
  · intro h
    simp [LevelAction.init, h]

/-- Witness for C9 at levels 150 and 50. -/
theorem level_action_validates_at_construction_witness :
    LevelAction.init 150 = Except.error "Level must be between 0 and 100" ∧
    LevelAction.init 50 = Except.ok 50 :=
  ⟨(level_action_validates_at_construction 150).1 (by decide),
   (level_action_validates_at_construction 50).2 (by decide)⟩

/-- C10: `get_success_rate` is 0 on an empty Result Table and otherwise the
number of records with `success` true, divided by the number of records,
times 100. -/
theorem success_rate_formula (s : BatchActionState) :
    (s.results = [] → s.get_success_rate = 0) ∧
    (s.results ≠ [] →
      s.get_success_rate =
        ((successCount s.results : Rat) / (s.results.length : Rat)) * 100) := by
  constructor
  · intro h
    simp [BatchActionState.get_success_rate, h]
  · intro h
    rw [BatchActionState.get_success_rate, if_neg]
    simp [h]

/-- Witness for C10 on an empty table and on a two-record table. -/
theorem success_rate_formula_witness :
    ({ action := BAction.refreshA, results := [] } : BatchActionState).get_success_rate
      = 0 ∧
    ({ action := BAction.refreshA,
       results := [("a", { success := true, name := "x" }),
                   ("b", { success := false, name := "y" })] } :
        BatchActionState).get_success_rate =
      ((successCount [("a", { success := true, name := "x" }),
                      ("b", { success := false, name := "y" })] : Rat) /
        (([("a", ({ success := true, name := "x" } : Outcome)),
           ("b", { success := false, name := "y" })] : Results).length : Rat)) * 100 :=
  ⟨(success_rate_formula { action := BAction.refreshA, results := [] }).1 rfl,
   (success_rate_formula _).2 (by decide)⟩

/-- The `softBool` wrapper returns `true` exactly when the wrapped body
succeeded with `True`; in particular an exception in the body yields
`false`. -/
theorem softBool_eq_true_iff (e : Except String Bool) :
    softBool e = true ↔ e = Except.ok true := by
  cases e <;> simp [softBool]

/-- C3: `FilterGroup.matches` returns `True` on an empty group; otherwise
it is the AND-reduction (operator "and") or OR-reduction (operator "or") of
the member predicates' results in list order, and for any other operator it
raises instead of returning a boolean. -/
theorem filter_group_matches_spec (g : FilterGroup) (d : FilterDevice) :
    (g.filters = [] → g.matches d = Except.ok true) ∧
    (g.filters ≠ [] → g.operator = "and" →
      g.matches d = Except.ok (g.filters.all (fun f => f.matches d))) ∧
    (g.filters ≠ [] → g.operator = "or" →
      g.matches d = Except.ok (g.filters.any (fun f => f.matches d))) ∧
    (g.filters ≠ [] → g.operator ≠ "and" → g.operator ≠ "or" →
      g.matches d = Except.error ("Unknown operator: " ++ g.operator)) := by
  refine ⟨?_, ?_, ?_, ?_⟩
  · intro h
    simp [FilterGroup.matches, h]
  · intro h1 h2
    simp [FilterGroup.matches, h1, h2]
  · intro h1 h2
    simp [FilterGroup.matches, h1, h2]
  · intro h1 h2 h3
    simp [FilterGroup.matches, h1, h2, h3]

/-- Witness for C3 on concrete groups over a concrete device. -/
theorem filter_group_matches_spec_witness :
    FilterGroup.matches { filters := [], operator := "and" } declaredSwitchDevice =
      Except.ok true ∧
    FilterGroup.matches
      { filters := [DeviceFilter.statusF (StatusFilter.mk true)],
        operator := "and" } declaredSwitchDevice =
      Except.ok ([DeviceFilter.statusF (StatusFilter.mk true)].all
        (fun f => f.matches declaredSwitchDevice)) ∧
    FilterGroup.matches
      { filters := [DeviceFilter.statusF (StatusFilter.mk true)],
        operator := "or" } declaredSwitchDevice =
      Except.ok ([DeviceFilter.statusF (StatusFilter.mk true)].any
        (fun f => f.matches declaredSwitchDevice)) ∧
    FilterGroup.matches
      { filters := [DeviceFilter.statusF (StatusFilter.mk true)],
        operator := "xor" } declaredSwitchDevice =
      Except.error ("Unknown operator: " ++ "xor") :=
  ⟨(filter_group_matches_spec _ declaredSwitchDevice).1 rfl,
   (filter_group_matches_spec _ declaredSwitchDevice).2.1 (by decide) rfl,
   (filter_group_matches_spec _ declaredSwitchDevice).2.2.1 (by decide) rfl,
   (filter_group_matches_spec _ declaredSwitchDevice).2.2.2 (by decide)
     (by decide) (by decide)⟩

/-- C5 counterexample: a device exposing an empty `capabilities` collection
together with `turn_on` and `turn_off` operations does NOT match
`CapabilityFilter("switch")`: the membership test on the exposed collection
wins and the operation-based inference is never consulted, contradicting
"presence of turn_on and turn_off implies a match". -/
theorem capability_filter_counterexample :
    emptyCapsSwitchDevice.has_turn_on = true ∧
    emptyCapsSwitchDevice.has_turn_off = true ∧
    ({ capability := "switch" } : CapabilityFilter).matches emptyCapsSwitchDevice
      = false := by
  decide

/-- C5 (amended): `CapabilityFilter.matches` decides by membership in the
first exposed capabilities collection (the device's own, else the wrapped
`_st_device`'s); only when the device exposes no capabilities collection at
all is the capability inferred from exposed operations — `turn_on` plus
`turn_off` for "switch", a `battery_level` attribute for "battery". -/
theorem capability_filter_matches_amended (f : CapabilityFilter) (d : FilterDevice) :
    (∀ caps, d.capabilities = some caps →
      f.matches d = caps.contains f.capability) ∧
    (d.capabilities = none → ∀ caps, d.st_capabilities = some caps →
      f.matches d = caps.contains f.capability) ∧
    (d.capabilities = none → d.st_capabilities = none →
      (f.matches d = true ↔
        (f.capability = "switch" ∧ d.has_turn_on = true ∧ d.has_turn_off = true) ∨
        (f.capability = "battery" ∧ d.battery_attr.isSome = true))) := by
  refine ⟨?_, ?_, ?_⟩
  · intro caps h
    simp [CapabilityFilter.matches, CapabilityFilter.matchesBody, h, softBool]
  · intro h1 caps h2
    simp [CapabilityFilter.matches, CapabilityFilter.matchesBody, h1, h2, softBool]
  · intro h1 h2
    by_cases hsw : f.capability = "switch" <;>
    by_cases hba : f.capability = "battery" <;>
    cases hon : d.has_turn_on <;>
    cases hoff : d.has_turn_off <;>
    cases hb : d.battery_attr <;>
    simp [CapabilityFilter.matches, CapabilityFilter.matchesBody, h1, h2, softBool,
      hsw, hba, hon, hoff, hb]

/-- Witness for the amended C5: a declared capability matches by
membership; with no capabilities collection, the switch inference applies. -/
theorem capability_filter_matches_amended_witness :
    ({ capability := "switch" } : CapabilityFilter).matches declaredSwitchDevice =
      (["switch"].contains "switch") ∧
    (({ capability := "switch" } : CapabilityFilter).matches unreadableDevice = true ↔
      ("switch" = "switch" ∧ unreadableDevice.has_turn_on = true ∧
        unreadableDevice.has_turn_off = true) ∨
      ("switch" = "battery" ∧ unreadableDevice.battery_attr.isSome = true)) :=
  ⟨(capability_filter_matches_amended { capability := "switch" }
      declaredSwitchDevice).1 ["switch"] rfl,
   (capability_filter_matches_amended { capability := "switch" }
      unreadableDevice).2.2 rfl rfl⟩

/-- C6: every leaf predicate's `matches` is a total boolean function whose
result is `true` exactly when the `try`-block body returns `True`; any
exception in the body (in particular a failed attribute read) therefore
yields `false` rather than propagating, as the last three conjuncts state
for the three attribute reads that can raise. -/
theorem leaf_predicates_fail_soft (d : FilterDevice) :
    (∀ f : StatusFilter, f.matches d = true ↔ f.matchesBody d = Except.ok true) ∧
    (∀ f : RoomFilter, f.matches d = true ↔ f.matchesBody d = Except.ok true) ∧
    (∀ f : NameFilter, f.matches d = true ↔ f.matchesBody d = Except.ok true) ∧
    (∀ f : BatteryLevelFilter, f.matches d = true ↔ f.matchesBody d = Except.ok true) ∧
    (∀ f : CapabilityFilter, f.matches d = true ↔ f.matchesBody d = Except.ok true) ∧
    (∀ f : TypeFilter, f.matches d = true ↔ f.matchesBody d = Except.ok true) ∧
    (d.is_online = none → ∀ f : StatusFilter, f.matches d = false) ∧
    (d.room = none → ∀ f : RoomFilter, f.matches d = false) ∧
    (d.name = none → ∀ f : NameFilter, f.matches d = false) := by
  refine ⟨fun f => softBool_eq_true_iff _, fun f => softBool_eq_true_iff _,
    fun f => softBool_eq_true_iff _, fun f => softBool_eq_true_iff _,
    fun f => softBool_eq_true_iff _, fun f => softBool_eq_true_iff _,
    ?_, ?_, ?_⟩
  · intro h f
    simp [StatusFilter.matches, StatusFilter.matchesBody, h, softBool]
  · intro h f
    simp [RoomFilter.matches, RoomFilter.matchesBody, h, softBool]
  · intro h f
    simp [NameFilter.matches, NameFilter.matchesBody, h, softBool]

/-- Witness for C6 on a device none of whose attributes can be read. -/
theorem leaf_predicates_fail_soft_witness :
    ({ is_online := true } : StatusFilter).matches unreadableDevice = false ∧
    (RoomFilter.init "kitchen" false).matches unreadableDevice = false ∧
    (NameFilter.init "lamp" "contains" false).matches unreadableDevice = false :=
  ⟨(leaf_predicates_fail_soft unreadableDevice).2.2.2.2.2.2.1 rfl { is_online := true },
   (leaf_predicates_fail_soft unreadableDevice).2.2.2.2.2.2.2.1 rfl
     (RoomFilter.init "kitchen" false),
   (leaf_predicates_fail_soft unreadableDevice).2.2.2.2.2.2.2.2 rfl
     (NameFilter.init "lamp" "contains" false)⟩
